import Mathlib

/-!
Verification of the goschedviz core: the event/task model (package model),
the per-task state machine (internal/scheduler/statemachine.go), the
concurrent trace parser's per-task update (package traceparser), and the
aggregation/bottleneck analyzer (internal/analyzer/analyzer.go).

Durations and timestamps (Go time.Duration, int64 nanoseconds) are modelled
as Int; the int64 range plays no role in any property below, so overflow is
not modelled.  Go maps are modelled as association lists in insertion order
(Go iteration order is unspecified; every aggregate we prove is
order-independent or is stated for the model's fixed order).  float64
arithmetic in the analyzer is modelled exactly over the rationals, with the
division-by-zero cases of IEEE made explicit where the code can reach them.
-/

namespace GoSchedViz

/-- Execution state of a goroutine (model.GoroutineState). -/
inductive GoroutineState
  | StateRunning
  | StateRunnable
  | StateBlocked
deriving DecidableEq, Repr

/-- Blocking reason taxonomy (model.BlockingReason). -/
inductive BlockingReason
  | BlockNone
  | BlockChannelSend
  | BlockChannelRecv
  | BlockMutexLock
  | BlockSyscall
  | BlockGC
  | BlockNetwork
  | BlockSelect
  | BlockSleep
  | BlockSync
deriving DecidableEq, Repr

/-- A single blocking occurrence (model.BlockingEvent). -/
structure BlockingEvent where
  StartTime : Int
  EndTime : Int
  Duration : Int
  Reason : BlockingReason
deriving DecidableEq, Repr

/-- Association-list lookup, modelling Go map indexing with ok-flag. -/
def lookupAssoc {β : Type} : List (BlockingReason × β) → BlockingReason → Option β
  | [], _ => Option.none
  | (k, v) :: rest, r => if k = r then Option.some v else lookupAssoc rest r

/-- Go map update m[r] += d: add to the existing entry, or insert (r, d). -/
def addToReason : List (BlockingReason × Int) → BlockingReason → Int → List (BlockingReason × Int)
  | [], r, d => [(r, d)]
  | (k, v) :: rest, r, d =>
      if k = r then (k, v + d) :: rest else (k, v) :: addToReason rest r d

/-- Sum of the values of a reason map. -/
def sumVals : List (BlockingReason × Int) → Int
  | [] => 0
  | (_, v) :: rest => v + sumVals rest

/-- Per-goroutine lifecycle record (model.GoroutineInfo). -/
structure GoroutineInfo where
  ID : Nat
  CreatedAt : Int
  TerminatedAt : Int
  TotalRuntime : Int
  TotalBlocked : Int
  TotalRunnable : Int
  BlockingEvents : List BlockingEvent
  CurrentState : GoroutineState
  BlockingByReason : List (BlockingReason × Int)
  LastStateChange : Int
  PendingBlock : Option BlockingEvent
deriving DecidableEq, Repr

/-- model.NewGoroutineInfo: fresh record, initial state Runnable. -/
def NewGoroutineInfo (id : Nat) (createdAt : Int) : GoroutineInfo :=
  { ID := id
    CreatedAt := createdAt
    TerminatedAt := 0
    TotalRuntime := 0
    TotalBlocked := 0
    TotalRunnable := 0
    BlockingEvents := []
    CurrentState := GoroutineState.StateRunnable
    BlockingByReason := []
    LastStateChange := createdAt
    PendingBlock := Option.none }

/-- model.GoroutineInfo.AddBlockingEvent: append the event and update the
TotalBlocked and per-reason aggregates. -/
def AddBlockingEvent (g : GoroutineInfo) (event : BlockingEvent) : GoroutineInfo :=
  { g with
    BlockingEvents := g.BlockingEvents ++ [event]
    TotalBlocked := g.TotalBlocked + event.Duration
    BlockingByReason := addToReason g.BlockingByReason event.Reason event.Duration }

/-- scheduler.goroutineState: per-goroutine tracking state of the
StateTracker (info pointer plus the block-interval bookkeeping fields). -/
structure goroutineState where
  info : GoroutineInfo
  lastTransitionTime : Int
  blockStartTime : Int
  blockReason : BlockingReason
deriving DecidableEq, Repr

/-- A decoded state-transition event: task id, timestamp, reported prior
state, target state, blocking reason. -/
structure TransitionEvent where
  gid : Nat
  timestamp : Int
  fromState : GoroutineState
  toState : GoroutineState
  reason : BlockingReason
deriving DecidableEq, Repr

/-- Body of scheduler.StateTracker.RecordTransition applied to one already
existing goroutineState (the code after the creation lookup). -/
def recordTransitionCore (gs : goroutineState) (e : TransitionEvent) : goroutineState :=
  let duration := e.timestamp - gs.lastTransitionTime
  let info1 :=
    match e.fromState with
    | GoroutineState.StateRunning =>
        { gs.info with TotalRuntime := gs.info.TotalRuntime + duration }
    | GoroutineState.StateRunnable =>
        { gs.info with TotalRunnable := gs.info.TotalRunnable + duration }
    | GoroutineState.StateBlocked => gs.info
  let gs1 :=
    if e.toState = GoroutineState.StateBlocked then
      { gs with info := info1, blockStartTime := e.timestamp, blockReason := e.reason }
    else if e.fromState = GoroutineState.StateBlocked then
      if 0 < gs.blockStartTime then
        let blockDuration := e.timestamp - gs.blockStartTime
        let event : BlockingEvent :=
          { StartTime := gs.blockStartTime
            EndTime := e.timestamp
            Duration := blockDuration
            Reason := gs.blockReason }
        { gs with info := AddBlockingEvent info1 event, blockStartTime := 0 }
      else
        { gs with info := info1 }
    else
      { gs with info := info1 }
  { gs1 with
    info := { gs1.info with CurrentState := e.toState }
    lastTransitionTime := e.timestamp }

/-- The goroutineState created by RecordTransition on first sight of a task
id (Go zero values for blockStartTime and blockReason). -/
def initState (e : TransitionEvent) : goroutineState :=
  { info := NewGoroutineInfo e.gid e.timestamp
    lastTransitionTime := e.timestamp
    blockStartTime := 0
    blockReason := BlockingReason.BlockNone }

/-- One RecordTransition step for a single task: create on first event,
then run the update body. -/
def schedStepOpt (s : Option goroutineState) (e : TransitionEvent) : goroutineState :=
  recordTransitionCore
    (match s with
     | Option.none => initState e
     | Option.some gs => gs) e

/-- Fold a per-task event sequence through RecordTransition. -/
def foldSched (l : List TransitionEvent) : Option goroutineState :=
  l.foldl (fun s e => Option.some (schedStepOpt s e)) Option.none

/-- scheduler.StateTracker.RecordTransition on the full task map, modelled
as a function from task id to tracking state. -/
def RecordTransition (st : Nat → Option goroutineState) (e : TransitionEvent) :
    Nat → Option goroutineState :=
  fun g => if g = e.gid then Option.some (schedStepOpt (st e.gid) e) else st g

/-- Fold a global event sequence through the StateTracker. -/
def foldTracker (l : List TransitionEvent) : Nat → Option goroutineState :=
  l.foldl RecordTransition (fun _ => Option.none)

/-- traceparser.Parser.handleStateTransition for a single task: create the
record if absent, charge the elapsed time to the recorded current state
(closing the pending block if currently Blocked), update state and
LastStateChange, and open a new pending block when entering Blocked. -/
def handleStateTransition (prev : Option GoroutineInfo) (e : TransitionEvent) : GoroutineInfo :=
  let g :=
    match prev with
    | Option.none => NewGoroutineInfo e.gid e.timestamp
    | Option.some g => g
  let ts := e.timestamp
  let duration := ts - g.LastStateChange
  let g1 :=
    match g.CurrentState with
    | GoroutineState.StateRunning =>
        { g with TotalRuntime := g.TotalRuntime + duration }
    | GoroutineState.StateRunnable =>
        { g with TotalRunnable := g.TotalRunnable + duration }
    | GoroutineState.StateBlocked =>
        match g.PendingBlock with
        | Option.some pb =>
            let event := { pb with EndTime := ts, Duration := ts - pb.StartTime }
            { AddBlockingEvent g event with PendingBlock := Option.none }
        | Option.none => g
  let g2 := { g1 with CurrentState := e.toState, LastStateChange := ts }
  if e.toState = GoroutineState.StateBlocked then
    { g2 with
      PendingBlock := Option.some
        { StartTime := ts, EndTime := 0, Duration := 0, Reason := e.reason } }
  else
    g2

/-- Fold a per-task event sequence through handleStateTransition. -/
def foldParser (l : List TransitionEvent) : Option GoroutineInfo :=
  l.foldl (fun s e => Option.some (handleStateTransition s e)) Option.none

/-- model.Summary: the analyzer's aggregate output. -/
structure Summary where
  TotalGoroutines : Nat
  PeakGoroutines : Nat
  TotalBlockedTime : Int
  TotalRuntime : Int
  BlockingBreakdown : List (BlockingReason × Int)
  BlockingPercent : List (BlockingReason × ℚ)
  TopBlocked : List GoroutineInfo
  HasPerformanceIssues : Bool
  Issues : List String
deriving DecidableEq, Repr

/-- The Go zero value of Summary, as allocated by NewAnalyzer. -/
def emptySummary : Summary :=
  { TotalGoroutines := 0
    PeakGoroutines := 0
    TotalBlockedTime := 0
    TotalRuntime := 0
    BlockingBreakdown := []
    BlockingPercent := []
    TopBlocked := []
    HasPerformanceIssues := false
    Issues := [] }

/-- analyzer.Analyzer: the task map (iteration order fixed as a list) plus
the summary the methods accumulate into. -/
structure Analyzer where
  goroutines : List GoroutineInfo
  summary : Summary
deriving DecidableEq, Repr

/-- analyzer.NewAnalyzer. -/
def NewAnalyzer (gs : List GoroutineInfo) : Analyzer :=
  { goroutines := gs, summary := emptySummary }

/-- The loop body of aggregateBlockingStats: accumulate one goroutine into
(summary, local totalBlocked). -/
def aggregateStep (acc : Summary × Int) (g : GoroutineInfo) : Summary × Int :=
  let s := acc.1
  let s :=
    { s with
      TotalBlockedTime := s.TotalBlockedTime + g.TotalBlocked
      TotalRuntime := s.TotalRuntime + g.TotalRuntime }
  let s :=
    { s with
      BlockingBreakdown :=
        g.BlockingByReason.foldl (fun m rd => addToReason m rd.1 rd.2) s.BlockingBreakdown }
  (s, acc.2 + g.TotalBlocked)

/-- analyzer.aggregateBlockingStats: fresh breakdown and percent maps,
accumulate totals (TotalBlockedTime and TotalRuntime are += on top of the
summary's existing values), then fill percentages when the locally computed
total blocked time is positive.  float64 percentages are modelled exactly
over the rationals. -/
def aggregateBlockingStats (a : Analyzer) : Analyzer :=
  let s0 := { a.summary with BlockingBreakdown := [], BlockingPercent := [] }
  let acc := a.goroutines.foldl aggregateStep (s0, 0)
  let s1 := acc.1
  let totalBlocked := acc.2
  let s2 :=
    if 0 < totalBlocked then
      { s1 with
        BlockingPercent :=
          s1.BlockingBreakdown.map fun rd =>
            (rd.1, (rd.2 : ℚ) / (totalBlocked : ℚ) * 100) }
    else s1
  { a with summary := s2 }

/-- Descending insertion by TotalBlocked, modelling sort.Slice with the
strict greater-than comparator (tie order is not a correctness property). -/
def insertBlocked (g : GoroutineInfo) : List GoroutineInfo → List GoroutineInfo
  | [] => [g]
  | h :: t => if h.TotalBlocked < g.TotalBlocked then g :: h :: t else h :: insertBlocked g t

/-- Sort goroutines by TotalBlocked descending. -/
def sortBlockedDesc : List GoroutineInfo → List GoroutineInfo
  | [] => []
  | h :: t => insertBlocked h (sortBlockedDesc t)

/-- analyzer.findTopBlocked: keep goroutines with positive TotalBlocked,
sort descending, take the top ten. -/
def findTopBlocked (a : Analyzer) : Analyzer :=
  let items := a.goroutines.filter fun g => decide (0 < g.TotalBlocked)
  let sorted := sortBlockedDesc items
  let topN := min 10 sorted.length
  { a with summary := { a.summary with TopBlocked := sorted.take topN } }

/-- One threshold rule over the percentage map: if the reason has an entry
and it exceeds the threshold, set the flag and append the message. -/
def applyPctRule (s : Summary) (r : BlockingReason) (thr : ℚ) (msg : String) : Summary :=
  match lookupAssoc s.BlockingPercent r with
  | Option.some pct =>
      if thr < pct then
        { s with HasPerformanceIssues := true, Issues := s.Issues ++ [msg] }
      else s
  | Option.none => s

/-- float64(num)/float64(den)*100 compared against a threshold, as the Go
dominance check computes it: exact rational arithmetic for nonzero
denominators; for a zero denominator IEEE gives +Inf (num positive, exceeds
any threshold) or NaN / -Inf (comparison false). -/
def pctOfGt (num den : Int) (thr : ℚ) : Bool :=
  if den = 0 then decide (0 < num) else decide (thr < (num : ℚ) / (den : ℚ) * 100)

/-- The starvation test inside detectPerformanceIssues:
float64(TotalRunnable)/float64(TotalRunnable+TotalRuntime) > 0.7, modelled
exactly over the rationals (the guards make the denominator positive). -/
def starvationRatioGt (g : GoroutineInfo) : Bool :=
  decide ((7 : ℚ) / 10 < (g.TotalRunnable : ℚ) / ((g.TotalRunnable : ℚ) + (g.TotalRuntime : ℚ)))

/-- Message appended by the starvation rule. -/
def starvationMsg : String :=
  "Goroutine starvation detected (long runnable but not scheduled)"

/-- The starvation loop of detectPerformanceIssues: scan the task list and
report the first task with positive runnable and runtime whose runnable
ratio exceeds 0.7, then stop. -/
def starvationScan (s : Summary) : List GoroutineInfo → Summary
  | [] => s
  | g :: rest =>
      if 0 < g.TotalRunnable ∧ 0 < g.TotalRuntime then
        if starvationRatioGt g then
          { s with HasPerformanceIssues := true, Issues := s.Issues ++ [starvationMsg] }
        else starvationScan s rest
      else starvationScan s rest

/-- The single-goroutine dominance check: when TopBlocked is non-empty and
the top entry's blocked time is over half of TotalBlockedTime, flag it. -/
def dominanceRule (s : Summary) : Summary :=
  match s.TopBlocked with
  | [] => s
  | top :: _ =>
      if pctOfGt top.TotalBlocked s.TotalBlockedTime 50 then
        { s with
          HasPerformanceIssues := true
          Issues := s.Issues ++ ["Single goroutine accounts for >50% of blocking time"] }
      else s

/-- analyzer.detectPerformanceIssues: reset the issue list, apply the four
percentage-threshold rules, the single-goroutine dominance rule, and the
starvation scan. -/
def detectPerformanceIssues (a : Analyzer) : Analyzer :=
  let s := { a.summary with Issues := [] }
  let s := applyPctRule s BlockingReason.BlockChannelRecv 40
    "Excessive channel receive blocking (>40%)"
  let s := applyPctRule s BlockingReason.BlockChannelSend 40
    "Excessive channel send blocking (>40%)"
  let s := applyPctRule s BlockingReason.BlockMutexLock 30
    "High mutex contention (>30%)"
  let s := applyPctRule s BlockingReason.BlockGC 15
    "High GC pressure (>15%)"
  let s := dominanceRule s
  let s := starvationScan s a.goroutines
  { a with summary := s }

/-- analyzer.Analyzer.Analyze as a state transformer: sets the counts,
runs the three phases, and returns the summary together with the mutated
Analyzer (whose summary persists across calls). -/
def AnalyzeStep (a : Analyzer) : Summary × Analyzer :=
  let a :=
    { a with
      summary :=
        { a.summary with
          TotalGoroutines := a.goroutines.length
          PeakGoroutines := a.goroutines.length } }
  let a := aggregateBlockingStats a
  let a := findTopBlocked a
  let a := detectPerformanceIssues a
  (a.summary, a)

/-- The one-shot use NewAnalyzer(tasks).Analyze(). -/
def Analyze (gs : List GoroutineInfo) : Summary :=
  (AnalyzeStep (NewAnalyzer gs)).1

/-!  Predicates over per-task event sequences. -/

/-- The state the tracker currently records for the task: Runnable before
the first event (a fresh record starts Runnable), else the stored state. -/
def recordedState : Option goroutineState → GoroutineState
  | Option.none => GoroutineState.StateRunnable
  | Option.some gs => gs.info.CurrentState

/-- Every event's reported prior state equals the state the tracker records
at that point of the fold. -/
def consistentFrom : Option goroutineState → List TransitionEvent → Bool
  | _, [] => true
  | s, e :: rest =>
      decide (e.fromState = recordedState s) &&
      consistentFrom (Option.some (schedStepOpt s e)) rest

/-- Timestamps are non-decreasing along the sequence. -/
def nonDecrTs : List TransitionEvent → Bool
  | [] => true
  | [_] => true
  | a :: b :: rest => decide (a.timestamp ≤ b.timestamp) && nonDecrTs (b :: rest)

/-- Every transition into Blocked carries a positive timestamp. -/
def posBlockedTs (l : List TransitionEvent) : Bool :=
  l.all fun e => decide (e.toState ≠ GoroutineState.StateBlocked ∨ 0 < e.timestamp)

/-- No event reports both prior and target state Blocked. -/
def noBlockedToBlocked (l : List TransitionEvent) : Bool :=
  l.all fun e =>
    decide (¬ (e.fromState = GoroutineState.StateBlocked ∧
               e.toState = GoroutineState.StateBlocked))

/-- Sum of the durations of a list of closed blocking intervals. -/
def sumDurations : List BlockingEvent → Int
  | [] => 0
  | ev :: rest => ev.Duration + sumDurations rest

/-- The time-accounting property of a tracker state as the spec claims it:
runtime + runnable + closed-interval durations is at most the span from
creation to the last transition, with equality when no pending interval
(blockStartTime = 0) remains. -/
def accountingClaimB (l : List TransitionEvent) : Bool :=
  match foldSched l with
  | Option.none => true
  | Option.some gs =>
      let total := gs.info.TotalRuntime + gs.info.TotalRunnable +
        sumDurations gs.info.BlockingEvents
      decide (total ≤ gs.lastTransitionTime - gs.info.CreatedAt) &&
      (decide (gs.blockStartTime ≠ 0) ||
       decide (total = gs.lastTransitionTime - gs.info.CreatedAt))

/-- Internal invariant of the tracker fold under consistent sequences:
exact time accounting plus the link between the recorded state and the
pending-interval bookkeeping. -/
def schedInv (gs : goroutineState) : Prop :=
  gs.info.TotalRuntime + gs.info.TotalRunnable + sumDurations gs.info.BlockingEvents
      = gs.lastTransitionTime - gs.info.CreatedAt
  ∧ (gs.info.CurrentState = GoroutineState.StateBlocked →
      gs.blockStartTime = gs.lastTransitionTime ∧ 0 < gs.blockStartTime)
  ∧ (gs.info.CurrentState ≠ GoroutineState.StateBlocked → gs.blockStartTime = 0)

/-- Agreement of the five fields the two per-task update routines both
maintain. -/
def agreeInfo (gs : goroutineState) (g : GoroutineInfo) : Prop :=
  gs.info.TotalRuntime = g.TotalRuntime
  ∧ gs.info.TotalRunnable = g.TotalRunnable
  ∧ gs.info.TotalBlocked = g.TotalBlocked
  ∧ gs.info.BlockingEvents = g.BlockingEvents
  ∧ gs.info.BlockingByReason = g.BlockingByReason

/-- Agreement lifted to the optional fold results. -/
def agreeOpt : Option goroutineState → Option GoroutineInfo → Prop
  | Option.none, Option.none => True
  | Option.some gs, Option.some g => agreeInfo gs g
  | _, _ => False

/-- Simulation relation between a tracker state and a parser record. -/
def simInv (gs : goroutineState) (g : GoroutineInfo) : Prop :=
  agreeInfo gs g
  ∧ gs.info.CurrentState = g.CurrentState
  ∧ gs.lastTransitionTime = g.LastStateChange
  ∧ (match g.PendingBlock with
     | Option.some pb =>
         gs.blockStartTime = pb.StartTime ∧ gs.blockReason = pb.Reason ∧ 0 < pb.StartTime
     | Option.none => gs.blockStartTime = 0)

/-- Simulation lifted to the optional fold results. -/
def simOpt : Option goroutineState → Option GoroutineInfo → Prop
  | Option.none, Option.none => True
  | Option.some gs, Option.some g => simInv gs g
  | _, _ => False

/-!  Aggregate sums over task lists and maps. -/

/-- Total blocked time across a task list. -/
def totalBlockedAll : List GoroutineInfo → Int
  | [] => 0
  | g :: rest => g.TotalBlocked + totalBlockedAll rest

/-- Total runtime across a task list. -/
def totalRuntimeAll : List GoroutineInfo → Int
  | [] => 0
  | g :: rest => g.TotalRuntime + totalRuntimeAll rest

/-- Total duration attributed to some reason bucket, across a task list. -/
def attributedAll : List GoroutineInfo → Int
  | [] => 0
  | g :: rest => sumVals g.BlockingByReason + attributedAll rest

/-- Sum of the entries of a percentage map. -/
def sumPercents : List (BlockingReason × ℚ) → ℚ
  | [] => 0
  | (_, q) :: rest => q + sumPercents rest

/-- The starvation condition exactly as the spec sentence states it, with no
guard on TotalRuntime: runnableTime / (runnableTime + runtimeTime) > 0.7. -/
def specStarvationRatioExceeds (g : GoroutineInfo) : Bool :=
  decide ((7 : ℚ) / 10 < (g.TotalRunnable : ℚ) / ((g.TotalRunnable : ℚ) + (g.TotalRuntime : ℚ)))

/-!  Concrete inputs used by scenario theorems, witnesses and
counterexamples. -/

/-- The spec's scenario: Runnable→Running at 0, Running→Blocked(lock) at 10,
Blocked→Runnable at 40, for one task. -/
def scenarioEvents : List TransitionEvent :=
  [⟨1, 0, GoroutineState.StateRunnable, GoroutineState.StateRunning, BlockingReason.BlockNone⟩,
   ⟨1, 10, GoroutineState.StateRunning, GoroutineState.StateBlocked, BlockingReason.BlockMutexLock⟩,
   ⟨1, 40, GoroutineState.StateBlocked, GoroutineState.StateRunnable, BlockingReason.BlockNone⟩]

/-- The tracker state produced by folding scenarioEvents. -/
def scenarioResult : goroutineState :=
  { info :=
      { ID := 1
        CreatedAt := 0
        TerminatedAt := 0
        TotalRuntime := 10
        TotalBlocked := 30
        TotalRunnable := 0
        BlockingEvents :=
          [{ StartTime := 10, EndTime := 40, Duration := 30,
             Reason := BlockingReason.BlockMutexLock }]
        CurrentState := GoroutineState.StateRunnable
        BlockingByReason := [(BlockingReason.BlockMutexLock, 30)]
        LastStateChange := 0
        PendingBlock := Option.none }
    lastTransitionTime := 40
    blockStartTime := 0
    blockReason := BlockingReason.BlockMutexLock }

/-- A task that enters Blocked at timestamp 0 and leaves it at 10: the
transitions are state-consistent and time-ordered. -/
def tZeroEvents : List TransitionEvent :=
  [⟨1, 0, GoroutineState.StateRunnable, GoroutineState.StateBlocked, BlockingReason.BlockMutexLock⟩,
   ⟨1, 10, GoroutineState.StateBlocked, GoroutineState.StateRunnable, BlockingReason.BlockNone⟩]

/-- Time-ordered events whose reported prior states disagree with the
recorded state (the second event claims Running while Blocked is open). -/
def inconsistentEvents : List TransitionEvent :=
  [⟨1, 10, GoroutineState.StateRunnable, GoroutineState.StateBlocked, BlockingReason.BlockMutexLock⟩,
   ⟨1, 20, GoroutineState.StateRunning, GoroutineState.StateRunning, BlockingReason.BlockNone⟩,
   ⟨1, 30, GoroutineState.StateBlocked, GoroutineState.StateRunnable, BlockingReason.BlockNone⟩]

/-- A concrete tracker state with no open blocking interval. -/
def c8State : goroutineState :=
  { info :=
      { NewGoroutineInfo 3 0 with
        TotalRuntime := 4
        TotalBlocked := 2
        CurrentState := GoroutineState.StateBlocked
        BlockingEvents := [{ StartTime := 1, EndTime := 3, Duration := 2,
                             Reason := BlockingReason.BlockChannelRecv }]
        BlockingByReason := [(BlockingReason.BlockChannelRecv, 2)] }
    lastTransitionTime := 6
    blockStartTime := 0
    blockReason := BlockingReason.BlockChannelRecv }

/-- A transition out of Blocked at timestamp 9. -/
def c8Event : TransitionEvent :=
  ⟨3, 9, GoroutineState.StateBlocked, GoroutineState.StateRunnable, BlockingReason.BlockNone⟩

/-- A task with runnable time but zero runtime: the spec ratio is 1. -/
def starvedNoRuntime : GoroutineInfo :=
  { NewGoroutineInfo 1 0 with TotalRunnable := 10 }

/-- A task with positive runnable and runtime and ratio 8/9 > 0.7. -/
def starvedTask : GoroutineInfo :=
  { NewGoroutineInfo 2 0 with TotalRunnable := 8, TotalRuntime := 1 }

/-- A task with 10ns of channel-receive blocking. -/
def blockedTask : GoroutineInfo :=
  { NewGoroutineInfo 1 0 with
    TotalBlocked := 10
    TotalRuntime := 5
    BlockingEvents := [{ StartTime := 0, EndTime := 10, Duration := 10,
                         Reason := BlockingReason.BlockChannelRecv }]
    BlockingByReason := [(BlockingReason.BlockChannelRecv, 10)] }

/-- First event of task 1 in the sharding example. -/
def shardA1 : TransitionEvent :=
  ⟨1, 0, GoroutineState.StateRunnable, GoroutineState.StateRunning, BlockingReason.BlockNone⟩

/-- Second event of task 1 in the sharding example. -/
def shardA2 : TransitionEvent :=
  ⟨1, 10, GoroutineState.StateRunning, GoroutineState.StateRunnable, BlockingReason.BlockNone⟩

/-- Sole event of task 2 in the sharding example. -/
def shardB1 : TransitionEvent :=
  ⟨2, 5, GoroutineState.StateRunnable, GoroutineState.StateRunning, BlockingReason.BlockNone⟩

/-- One interleaving of the two tasks' events. -/
def shardEvents1 : List TransitionEvent := [shardA1, shardB1, shardA2]

/-- Another interleaving preserving each task's own order. -/
def shardEvents2 : List TransitionEvent := [shardB1, shardA1, shardA2]

/-- The summary fields that detectPerformanceIssues never writes. -/
def nonIssueFields (s : Summary) :
    Nat × Nat × Int × Int × List (BlockingReason × Int) × List (BlockingReason × ℚ) ×
      List GoroutineInfo :=
  (s.TotalGoroutines, s.PeakGoroutines, s.TotalBlockedTime, s.TotalRuntime,
   s.BlockingBreakdown, s.BlockingPercent, s.TopBlocked)

/-- The flag/issue-list agreement: HasPerformanceIssues is set exactly when
the issue list is non-empty. -/
def issuesInv (s : Summary) : Prop :=
  s.HasPerformanceIssues = true ↔ s.Issues ≠ []

/-- The setup stage of Analyze: the analyzer after the count assignments. -/
def analyzerSetup (a : Analyzer) : Analyzer :=
  { a with
    summary :=
      { a.summary with
        TotalGoroutines := a.goroutines.length
        PeakGoroutines := a.goroutines.length } }

theorem sumDurations_append (l : List BlockingEvent) (ev : BlockingEvent) :
    sumDurations (l ++ [ev]) = sumDurations l + ev.Duration := by
  induction l with
  | nil => simp [sumDurations]
  | cons h t ih => simp [sumDurations, ih]; ring

theorem schedInv_init (e : TransitionEvent) : schedInv (initState e) := by
  simp [schedInv, initState, NewGoroutineInfo, sumDurations]

theorem schedInv_step (gs : goroutineState) (e : TransitionEvent)
    (hinv : schedInv gs)
    (hfrom : e.fromState = gs.info.CurrentState)
    (hpos : e.toState = GoroutineState.StateBlocked → 0 < e.timestamp)
    (hnbb : ¬ (e.fromState = GoroutineState.StateBlocked ∧
               e.toState = GoroutineState.StateBlocked)) :
    schedInv (recordTransitionCore gs e) := by
  obtain ⟨⟨id0, cAt, tAt, rt, tb, rn, bev, cst, bbr, lsc, pb⟩, ltt, bst, br⟩ := gs
  obtain ⟨gid, ts, fs, tos, r⟩ := e
  obtain ⟨hsum, hblk, hnb⟩ := hinv
  simp only at hfrom hpos hnbb hsum hblk hnb
  subst hfrom
  cases fs
  case StateRunning =>
    have hb0 : bst = 0 := hnb (by simp)
    subst hb0
    cases tos <;>
      simp_all [recordTransitionCore, schedInv, AddBlockingEvent, sumDurations_append] <;> omega
  case StateRunnable =>
    have hb0 : bst = 0 := hnb (by simp)
    subst hb0
    cases tos <;>
      simp_all [recordTransitionCore, schedInv, AddBlockingEvent, sumDurations_append] <;> omega
  case StateBlocked =>
    obtain ⟨hbe, hbp⟩ := hblk rfl
    subst hbe
    cases tos
    case StateRunning =>
      simp_all [recordTransitionCore, schedInv, AddBlockingEvent, sumDurations_append]
      omega
    case StateRunnable =>
      simp_all [recordTransitionCore, schedInv, AddBlockingEvent, sumDurations_append]
      omega
    case StateBlocked => exact absurd ⟨rfl, rfl⟩ hnbb

theorem foldSched_inv (l : List TransitionEvent) :
    ∀ (s : Option goroutineState),
      consistentFrom s l = true →
      posBlockedTs l = true →
      noBlockedToBlocked l = true →
      (∀ gs, s = Option.some gs → schedInv gs) →
      ∀ gs', l.foldl (fun s e => Option.some (schedStepOpt s e)) s = Option.some gs' →
        schedInv gs' := by
  induction l with
  | nil =>
    intro s _ _ _ hs gs' hfold
    exact hs gs' hfold
  | cons e rest ih =>
    intro s hc hp hn hs gs' hfold
    simp only [consistentFrom, Bool.and_eq_true, decide_eq_true_eq] at hc
    simp only [posBlockedTs, List.all_cons, Bool.and_eq_true, decide_eq_true_eq] at hp
    simp only [noBlockedToBlocked, List.all_cons, Bool.and_eq_true, decide_eq_true_eq] at hn
    simp only [List.foldl_cons] at hfold
    have hpos : e.toState = GoroutineState.StateBlocked → 0 < e.timestamp := by
      intro hb
      exact hp.1.resolve_left (by simp [hb])
    have hstep : schedInv (schedStepOpt s e) := by
      cases s with
      | none =>
        exact schedInv_step (initState e) e (schedInv_init e) hc.1 hpos hn.1
      | some gs0 =>
        exact schedInv_step gs0 e (hs gs0 rfl) hc.1 hpos hn.1
    refine ih (Option.some (schedStepOpt s e)) hc.2 hp.2 hn.2 ?_ gs' hfold
    intro gs hgs
    cases hgs
    exact hstep

/-- C1 (counterexample): with only non-decreasing timestamps as hypothesis
the accounting claim fails on the code.  A block entered at timestamp 0 is
dropped by the blockStartTime > 0 guard, so equality fails with no pending
interval left; and when reported prior states disagree with the recorded
state, the claimed upper bound itself is exceeded. -/
theorem C1_counterexample :
    (nonDecrTs tZeroEvents = true ∧ accountingClaimB tZeroEvents = false) ∧
    (nonDecrTs inconsistentEvents = true ∧ accountingClaimB inconsistentEvents = false) := by
  decide

/-- C1 (amended): for event sequences with non-decreasing timestamps whose
reported prior states match the recorded state, in which transitions into
Blocked carry positive timestamps and no transition is Blocked→Blocked,
TotalRuntime + TotalRunnable + the closed blocking durations never exceed
(last transition − creation), with equality when no pending interval
remains. -/
theorem C1_amended (l : List TransitionEvent)
    (h1 : nonDecrTs l = true)
    (h2 : consistentFrom Option.none l = true)
    (h3 : posBlockedTs l = true)
    (h4 : noBlockedToBlocked l = true)
    (gs : goroutineState) (hgs : foldSched l = Option.some gs) :
    gs.info.TotalRuntime + gs.info.TotalRunnable + sumDurations gs.info.BlockingEvents
        ≤ gs.lastTransitionTime - gs.info.CreatedAt
    ∧ (gs.blockStartTime = 0 →
        gs.info.TotalRuntime + gs.info.TotalRunnable + sumDurations gs.info.BlockingEvents
          = gs.lastTransitionTime - gs.info.CreatedAt) := by
  have hinv := foldSched_inv l Option.none h2 h3 h4 (by intro gs h; cases h) gs hgs
  exact ⟨le_of_eq hinv.1, fun _ => hinv.1⟩

/-- Witness for C1_amended at the spec scenario. -/
theorem C1_amended_witness :
    (nonDecrTs scenarioEvents = true ∧ consistentFrom Option.none scenarioEvents = true ∧
     posBlockedTs scenarioEvents = true ∧ noBlockedToBlocked scenarioEvents = true ∧
     foldSched scenarioEvents = Option.some scenarioResult) ∧
    (scenarioResult.info.TotalRuntime + scenarioResult.info.TotalRunnable +
        sumDurations scenarioResult.info.BlockingEvents
          ≤ scenarioResult.lastTransitionTime - scenarioResult.info.CreatedAt
     ∧ (scenarioResult.blockStartTime = 0 →
        scenarioResult.info.TotalRuntime + scenarioResult.info.TotalRunnable +
            sumDurations scenarioResult.info.BlockingEvents
          = scenarioResult.lastTransitionTime - scenarioResult.info.CreatedAt)) :=
  ⟨⟨by decide, by decide, by decide, by decide, by decide⟩,
   C1_amended scenarioEvents (by decide) (by decide) (by decide) (by decide)
     scenarioResult (by decide)⟩

/-- C2: folding Runnable→Running at 0, Running→Blocked(lock-acquire) at 10,
Blocked→Runnable at 40 yields TotalRuntime 10, exactly one closed interval
[10,40) of duration 30 with reason lock-acquire, and TotalBlocked 30. -/
theorem C2_scenario :
    (foldSched scenarioEvents).map
        (fun gs => (gs.info.TotalRuntime, gs.info.BlockingEvents, gs.info.TotalBlocked))
      = Option.some
          (10,
           [{ StartTime := 10, EndTime := 40, Duration := 30,
              Reason := BlockingReason.BlockMutexLock }],
           30) := by
  decide

/-- C8: a transition out of Blocked with no open interval (the defensive
no-op) records nothing — TotalBlocked, the interval list and the per-reason
map are untouched — while the current state and last-transition timestamp
are still updated; RecordTransition is total, so this path cannot crash. -/
theorem C8_defensive_noop (gs : goroutineState) (e : TransitionEvent)
    (hfrom : e.fromState = GoroutineState.StateBlocked)
    (hto : e.toState ≠ GoroutineState.StateBlocked)
    (hnopen : ¬ 0 < gs.blockStartTime) :
    (recordTransitionCore gs e).info.TotalBlocked = gs.info.TotalBlocked
    ∧ (recordTransitionCore gs e).info.BlockingEvents = gs.info.BlockingEvents
    ∧ (recordTransitionCore gs e).info.BlockingByReason = gs.info.BlockingByReason
    ∧ (recordTransitionCore gs e).info.CurrentState = e.toState
    ∧ (recordTransitionCore gs e).lastTransitionTime = e.timestamp := by
  obtain ⟨gid, ts, fs, tos, r⟩ := e
  simp only at hfrom hto
  subst hfrom
  simp [recordTransitionCore, hto, hnopen]

/-- Witness for C8_defensive_noop at a concrete state and event. -/
theorem C8_defensive_noop_witness :
    (c8Event.fromState = GoroutineState.StateBlocked ∧
     c8Event.toState ≠ GoroutineState.StateBlocked ∧
     ¬ 0 < c8State.blockStartTime) ∧
    ((recordTransitionCore c8State c8Event).info.TotalBlocked = c8State.info.TotalBlocked
     ∧ (recordTransitionCore c8State c8Event).info.BlockingEvents = c8State.info.BlockingEvents
     ∧ (recordTransitionCore c8State c8Event).info.BlockingByReason = c8State.info.BlockingByReason
     ∧ (recordTransitionCore c8State c8Event).info.CurrentState = c8Event.toState
     ∧ (recordTransitionCore c8State c8Event).lastTransitionTime = c8Event.timestamp) :=
  ⟨⟨by decide, by decide, by decide⟩,
   C8_defensive_noop c8State c8Event (by decide) (by decide) (by decide)⟩

/-- C10: a task entering Blocked at timestamp 0 and leaving Blocked later
gets no blocking interval: the open is stored as blockStartTime = 0, which
the blockStartTime > 0 test treats as no pending interval, so TotalBlocked,
the interval list and the per-reason map all stay empty. -/
theorem C10_zero_timestamp (fs tos : GoroutineState) (r1 r2 : BlockingReason) (t : Int)
    (hto : tos ≠ GoroutineState.StateBlocked) :
    ((foldSched [⟨1, 0, fs, GoroutineState.StateBlocked, r1⟩]).map
        fun gs => gs.blockStartTime) = Option.some 0
    ∧ ((foldSched [⟨1, 0, fs, GoroutineState.StateBlocked, r1⟩,
                   ⟨1, t, GoroutineState.StateBlocked, tos, r2⟩]).map
        fun gs => (gs.info.TotalBlocked, gs.info.BlockingEvents, gs.info.BlockingByReason))
      = Option.some (0, [], []) := by
  cases fs <;> cases tos <;>
    simp_all [foldSched, schedStepOpt, recordTransitionCore, initState, NewGoroutineInfo]

/-- Witness for C10_zero_timestamp with Runnable→Blocked then
Blocked→Runnable at t = 25. -/
theorem C10_zero_timestamp_witness :
    (GoroutineState.StateRunnable ≠ GoroutineState.StateBlocked) ∧
    (((foldSched [⟨1, 0, GoroutineState.StateRunnable, GoroutineState.StateBlocked,
                   BlockingReason.BlockMutexLock⟩]).map
        fun gs => gs.blockStartTime) = Option.some 0
     ∧ ((foldSched [⟨1, 0, GoroutineState.StateRunnable, GoroutineState.StateBlocked,
                     BlockingReason.BlockMutexLock⟩,
                    ⟨1, 25, GoroutineState.StateBlocked, GoroutineState.StateRunnable,
                     BlockingReason.BlockNone⟩]).map
        fun gs => (gs.info.TotalBlocked, gs.info.BlockingEvents, gs.info.BlockingByReason))
      = Option.some (0, [], [])) :=
  ⟨by decide,
   C10_zero_timestamp GoroutineState.StateRunnable GoroutineState.StateRunnable
     BlockingReason.BlockMutexLock BlockingReason.BlockNone 25 (by decide)⟩


theorem simInv_init (e : TransitionEvent) :
    simInv (initState e) (NewGoroutineInfo e.gid e.timestamp) := by
  simp [simInv, agreeInfo, initState, NewGoroutineInfo]

theorem simInv_step (gs : goroutineState) (g : GoroutineInfo) (e : TransitionEvent)
    (hsim : simInv gs g)
    (hfrom : e.fromState = gs.info.CurrentState)
    (hpos : e.toState = GoroutineState.StateBlocked → 0 < e.timestamp)
    (hnbb : ¬ (e.fromState = GoroutineState.StateBlocked ∧
               e.toState = GoroutineState.StateBlocked)) :
    simInv (recordTransitionCore gs e) (handleStateTransition (Option.some g) e) := by
  obtain ⟨⟨id0, cAt, tAt, rt, tb, rn, bev, cst, bbr, lsc, pb⟩, ltt, bst, br⟩ := gs
  obtain ⟨id2, cAt2, tAt2, rt2, tb2, rn2, bev2, cst2, bbr2, lsc2, pb2⟩ := g
  obtain ⟨gid, ts, fs, tos, r⟩ := e
  obtain ⟨⟨h1, h2, h3, h4, h5⟩, h6, h7, h8⟩ := hsim
  simp only at hfrom hpos hnbb h1 h2 h3 h4 h5 h6 h7 h8
  subst h1; subst h2; subst h3; subst h4; subst h5; subst h6; subst h7
  subst hfrom
  cases pb2 with
  | none =>
    simp only at h8
    subst h8
    cases fs <;> cases tos
    all_goals
      simp_all [recordTransitionCore, handleStateTransition, simInv, agreeInfo,
        AddBlockingEvent]
  | some pbv =>
    simp only at h8
    obtain ⟨hb1, hb2, hb3⟩ := h8
    subst hb1
    subst hb2
    cases fs <;> cases tos
    all_goals
      simp_all [recordTransitionCore, handleStateTransition, simInv, agreeInfo,
        AddBlockingEvent]


theorem foldSim (l : List TransitionEvent) :
    ∀ (s : Option goroutineState) (gp : Option GoroutineInfo),
      consistentFrom s l = true →
      posBlockedTs l = true →
      noBlockedToBlocked l = true →
      simOpt s gp →
      simOpt (l.foldl (fun s e => Option.some (schedStepOpt s e)) s)
             (l.foldl (fun s e => Option.some (handleStateTransition s e)) gp) := by
  induction l with
  | nil =>
    intro s gp _ _ _ hsim
    exact hsim
  | cons e rest ih =>
    intro s gp hc hp hn hsim
    simp only [consistentFrom, Bool.and_eq_true, decide_eq_true_eq] at hc
    simp only [posBlockedTs, List.all_cons, Bool.and_eq_true, decide_eq_true_eq] at hp
    simp only [noBlockedToBlocked, List.all_cons, Bool.and_eq_true, decide_eq_true_eq] at hn
    simp only [List.foldl_cons]
    have hpos : e.toState = GoroutineState.StateBlocked → 0 < e.timestamp := by
      intro hb
      exact hp.1.resolve_left (by simp [hb])
    have hstep : simInv (schedStepOpt s e) (handleStateTransition gp e) := by
      cases s with
      | none =>
        cases gp with
        | none =>
          have heq : handleStateTransition Option.none e
              = handleStateTransition (Option.some (NewGoroutineInfo e.gid e.timestamp)) e := rfl
          rw [heq]
          exact simInv_step (initState e) (NewGoroutineInfo e.gid e.timestamp) e
            (simInv_init e) hc.1 hpos hn.1
        | some g => exact hsim.elim
      | some gs =>
        cases gp with
        | none => exact hsim.elim
        | some g => exact simInv_step gs g e hsim hc.1 hpos hn.1
    exact ih (Option.some (schedStepOpt s e)) (Option.some (handleStateTransition gp e))
      hc.2 hp.2 hn.2 hstep

/-- C9 (counterexample): a state-consistent, time-ordered sequence entering
Blocked at timestamp 0 makes the two per-task routines disagree: the
scheduler records TotalBlocked 0 (the blockStartTime > 0 guard drops the
interval) while the traceparser records TotalBlocked 10. -/
theorem C9_counterexample :
    nonDecrTs tZeroEvents = true ∧ consistentFrom Option.none tZeroEvents = true ∧
    ((foldSched tZeroEvents).map fun gs => gs.info.TotalBlocked) = Option.some 0 ∧
    ((foldParser tZeroEvents).map fun g => g.TotalBlocked) = Option.some 10 := by
  decide

/-- C9 (amended): for per-task sequences with non-decreasing timestamps,
reported prior states matching the recorded state, positive timestamps on
transitions into Blocked, and no Blocked→Blocked transition, folding
scheduler.RecordTransition and traceparser.handleStateTransition yields
records agreeing on TotalRuntime, TotalRunnable, TotalBlocked, the closed
blocking events and the per-reason map. -/
theorem C9_amended (l : List TransitionEvent)
    (h1 : nonDecrTs l = true)
    (h2 : consistentFrom Option.none l = true)
    (h3 : posBlockedTs l = true)
    (h4 : noBlockedToBlocked l = true) :
    agreeOpt (foldSched l) (foldParser l) := by
  have h : simOpt (foldSched l) (foldParser l) :=
    foldSim l Option.none Option.none h2 h3 h4 True.intro
  cases hA : foldSched l with
  | none =>
    cases hB : foldParser l with
    | none => exact True.intro
    | some g => rw [hA, hB] at h; exact h.elim
  | some gs =>
    cases hB : foldParser l with
    | none => rw [hA, hB] at h; exact h.elim
    | some g => rw [hA, hB] at h; exact h.1

/-- Witness for C9_amended at the spec scenario. -/
theorem C9_amended_witness :
    (nonDecrTs scenarioEvents = true ∧ consistentFrom Option.none scenarioEvents = true ∧
     posBlockedTs scenarioEvents = true ∧ noBlockedToBlocked scenarioEvents = true) ∧
    agreeOpt (foldSched scenarioEvents) (foldParser scenarioEvents) :=
  ⟨⟨by decide, by decide, by decide, by decide⟩,
   C9_amended scenarioEvents (by decide) (by decide) (by decide) (by decide)⟩


theorem foldTracker_lookup (l : List TransitionEvent) :
    ∀ (m : Nat → Option goroutineState) (g : Nat),
      (l.foldl RecordTransition m) g
        = (l.filter fun e => e.gid == g).foldl
            (fun s e => Option.some (schedStepOpt s e)) (m g) := by
  induction l with
  | nil => intro m g; rfl
  | cons e rest ih =>
    intro m g
    simp only [List.foldl_cons, List.filter_cons]
    by_cases h : e.gid = g
    · subst h
      rw [ih]
      have hR : RecordTransition m e e.gid = Option.some (schedStepOpt (m e.gid) e) := by
        simp [RecordTransition]
      rw [hR]
      have hb : (e.gid == e.gid) = true := by simp
      simp [hb, List.foldl_cons]
    · have hgg : ¬ (g = e.gid) := fun hgg => h hgg.symm
      have hb : (e.gid == g) = false := by simpa using h
      rw [ih]
      have hR : RecordTransition m e g = m g := by simp [RecordTransition, hgg]
      rw [hR]
      simp [hb]



/-- C3: two global event sequences that are permutations of each other and
agree on each per-task subsequence fold to identical final task records for
every task id. -/
theorem C3_sharding (s1 s2 : List TransitionEvent)
    (hperm : s1.Perm s2)
    (hfilter : ∀ g : Nat,
      (s1.filter fun e => e.gid == g) = (s2.filter fun e => e.gid == g)) :
    ∀ g : Nat, foldTracker s1 g = foldTracker s2 g := by
  intro g
  unfold foldTracker
  rw [foldTracker_lookup s1 (fun _ => Option.none) g,
      foldTracker_lookup s2 (fun _ => Option.none) g, hfilter g]

/-- Witness for C3_sharding on two interleavings of two tasks. -/
theorem C3_sharding_witness :
    (shardEvents1.Perm shardEvents2 ∧
     ∀ g : Nat,
       (shardEvents1.filter fun e => e.gid == g)
         = (shardEvents2.filter fun e => e.gid == g)) ∧
    (∀ g : Nat, foldTracker shardEvents1 g = foldTracker shardEvents2 g) := by
  have hfilter : ∀ g : Nat,
      (shardEvents1.filter fun e => e.gid == g)
        = (shardEvents2.filter fun e => e.gid == g) := by
    intro g
    by_cases h1 : g = 1
    · subst h1; decide
    · by_cases h2 : g = 2
      · subst h2; decide
      · have e1 : ((1 : Nat) == g) = false := by simpa using fun hh : (1 : Nat) = g => h1 hh.symm
        have e2 : ((2 : Nat) == g) = false := by simpa using fun hh : (2 : Nat) = g => h2 hh.symm
        simp [shardEvents1, shardEvents2, shardA1, shardA2, shardB1, List.filter, e1, e2]
  have hperm : shardEvents1.Perm shardEvents2 := by decide
  exact ⟨⟨hperm, hfilter⟩, C3_sharding shardEvents1 shardEvents2 hperm hfilter⟩

theorem sumVals_addToReason (m : List (BlockingReason × Int)) (r : BlockingReason) (d : Int) :
    sumVals (addToReason m r d) = sumVals m + d := by
  induction m with
  | nil => simp [addToReason, sumVals]
  | cons h t ih =>
    obtain ⟨k, v⟩ := h
    by_cases hk : k = r
    · simp [addToReason, hk, sumVals]; ring
    · simp [addToReason, hk, sumVals, ih]; ring

theorem sumVals_foldl_add (entries : List (BlockingReason × Int)) :
    ∀ m : List (BlockingReason × Int),
      sumVals (entries.foldl (fun m rd => addToReason m rd.1 rd.2) m)
        = sumVals m + sumVals entries := by
  induction entries with
  | nil => intro m; simp [sumVals]
  | cons h t ih =>
    intro m
    simp only [List.foldl_cons, sumVals, ih, sumVals_addToReason]
    ring

theorem aggregate_fold (l : List GoroutineInfo) :
    ∀ (s : Summary) (t : Int),
      (l.foldl aggregateStep (s, t)).2 = t + totalBlockedAll l
      ∧ (l.foldl aggregateStep (s, t)).1.TotalBlockedTime
          = s.TotalBlockedTime + totalBlockedAll l
      ∧ (l.foldl aggregateStep (s, t)).1.TotalRuntime
          = s.TotalRuntime + totalRuntimeAll l
      ∧ sumVals (l.foldl aggregateStep (s, t)).1.BlockingBreakdown
          = sumVals s.BlockingBreakdown + attributedAll l
      ∧ (l.foldl aggregateStep (s, t)).1.TotalGoroutines = s.TotalGoroutines
      ∧ (l.foldl aggregateStep (s, t)).1.PeakGoroutines = s.PeakGoroutines
      ∧ (l.foldl aggregateStep (s, t)).1.BlockingPercent = s.BlockingPercent
      ∧ (l.foldl aggregateStep (s, t)).1.TopBlocked = s.TopBlocked
      ∧ (l.foldl aggregateStep (s, t)).1.HasPerformanceIssues = s.HasPerformanceIssues
      ∧ (l.foldl aggregateStep (s, t)).1.Issues = s.Issues := by
  induction l with
  | nil =>
    intro s t
    simp [totalBlockedAll, totalRuntimeAll, attributedAll]
  | cons g rest ih =>
    intro s t
    simp only [List.foldl_cons, totalBlockedAll, totalRuntimeAll, attributedAll]
    have := ih (aggregateStep (s, t) g).1 (aggregateStep (s, t) g).2
    simp only [aggregateStep] at this ⊢
    obtain ⟨h1, h2, h3, h4, h5, h6, h7, h8, h9, h10⟩ := this
    refine ⟨?_, ?_, ?_, ?_, ?_, ?_, ?_, ?_, ?_, ?_⟩ <;>
      simp_all [sumVals_foldl_add] <;> ring


theorem lookupAssoc_pct (m : List (BlockingReason × Int)) (T : ℚ) (r : BlockingReason) :
    lookupAssoc (m.map fun rd => (rd.1, (rd.2 : ℚ) / T * 100)) r
      = (lookupAssoc m r).map fun d => (d : ℚ) / T * 100 := by
  induction m with
  | nil => rfl
  | cons h t ih =>
    obtain ⟨k, v⟩ := h
    by_cases hk : k = r
    · simp [lookupAssoc, hk]
    · simp [lookupAssoc, hk, ih]

theorem sumPercents_map (m : List (BlockingReason × Int)) (T : ℚ) :
    sumPercents (m.map fun rd => (rd.1, (rd.2 : ℚ) / T * 100))
      = (sumVals m : ℚ) / T * 100 := by
  induction m with
  | nil => simp [sumPercents, sumVals]
  | cons h t ih =>
    obtain ⟨k, v⟩ := h
    simp only [List.map_cons, sumPercents, sumVals, ih]
    push_cast
    ring

theorem aggregate_characterization (a : Analyzer) :
    (aggregateBlockingStats a).goroutines = a.goroutines
    ∧ (aggregateBlockingStats a).summary.TotalBlockedTime
        = a.summary.TotalBlockedTime + totalBlockedAll a.goroutines
    ∧ (aggregateBlockingStats a).summary.TotalRuntime
        = a.summary.TotalRuntime + totalRuntimeAll a.goroutines
    ∧ sumVals (aggregateBlockingStats a).summary.BlockingBreakdown
        = attributedAll a.goroutines
    ∧ (aggregateBlockingStats a).summary.TotalGoroutines = a.summary.TotalGoroutines
    ∧ (aggregateBlockingStats a).summary.PeakGoroutines = a.summary.PeakGoroutines
    ∧ (aggregateBlockingStats a).summary.TopBlocked = a.summary.TopBlocked
    ∧ (aggregateBlockingStats a).summary.HasPerformanceIssues
        = a.summary.HasPerformanceIssues
    ∧ (aggregateBlockingStats a).summary.Issues = a.summary.Issues
    ∧ (¬ 0 < totalBlockedAll a.goroutines →
        (aggregateBlockingStats a).summary.BlockingPercent = [])
    ∧ (0 < totalBlockedAll a.goroutines →
        (aggregateBlockingStats a).summary.BlockingPercent
          = (aggregateBlockingStats a).summary.BlockingBreakdown.map fun rd =>
              (rd.1, (rd.2 : ℚ) / (totalBlockedAll a.goroutines : ℚ) * 100)) := by
  have hfold := aggregate_fold a.goroutines
    { a.summary with BlockingBreakdown := [], BlockingPercent := [] } 0
  obtain ⟨h1, h2, h3, h4, h5, h6, h7, h8, h9, h10⟩ := hfold
  rw [zero_add] at h1
  simp only [aggregateBlockingStats, h1]
  by_cases hT : 0 < totalBlockedAll a.goroutines
  · simp only [if_pos hT]
    simp_all [sumVals]
  · simp only [if_neg hT]
    simp_all [sumVals]


theorem findTopBlocked_preserves (a : Analyzer) :
    (findTopBlocked a).goroutines = a.goroutines
    ∧ nonIssueFields (findTopBlocked a).summary
        = (a.summary.TotalGoroutines, a.summary.PeakGoroutines, a.summary.TotalBlockedTime,
           a.summary.TotalRuntime, a.summary.BlockingBreakdown, a.summary.BlockingPercent,
           (sortBlockedDesc (a.goroutines.filter fun g => decide (0 < g.TotalBlocked))).take
             (min 10 (sortBlockedDesc
               (a.goroutines.filter fun g => decide (0 < g.TotalBlocked))).length))
    ∧ (findTopBlocked a).summary.HasPerformanceIssues = a.summary.HasPerformanceIssues
    ∧ (findTopBlocked a).summary.Issues = a.summary.Issues := by
  refine ⟨rfl, rfl, rfl, rfl⟩

theorem applyPctRule_nonIssue (s : Summary) (r : BlockingReason) (thr : ℚ) (msg : String) :
    nonIssueFields (applyPctRule s r thr msg) = nonIssueFields s := by
  unfold applyPctRule
  split
  · split <;> rfl
  · rfl

theorem dominanceRule_nonIssue (s : Summary) :
    nonIssueFields (dominanceRule s) = nonIssueFields s := by
  unfold dominanceRule
  split
  · rfl
  · split <;> rfl

theorem starvationScan_nonIssue (l : List GoroutineInfo) :
    ∀ s : Summary, nonIssueFields (starvationScan s l) = nonIssueFields s := by
  induction l with
  | nil => intro s; rfl
  | cons g rest ih =>
    intro s
    unfold starvationScan
    split
    · split
      · rfl
      · exact ih s
    · exact ih s

theorem detect_preserves (a : Analyzer) :
    (detectPerformanceIssues a).goroutines = a.goroutines
    ∧ nonIssueFields (detectPerformanceIssues a).summary = nonIssueFields a.summary := by
  refine ⟨rfl, ?_⟩
  show nonIssueFields (starvationScan _ _) = _
  rw [starvationScan_nonIssue, dominanceRule_nonIssue, applyPctRule_nonIssue,
    applyPctRule_nonIssue, applyPctRule_nonIssue, applyPctRule_nonIssue]
  rfl


theorem applyPctRule_issuesInv (s : Summary) (r : BlockingReason) (thr : ℚ) (msg : String)
    (h : issuesInv s) : issuesInv (applyPctRule s r thr msg) := by
  unfold applyPctRule
  split
  · split
    · simp [issuesInv]
    · exact h
  · exact h

theorem dominanceRule_issuesInv (s : Summary) (h : issuesInv s) :
    issuesInv (dominanceRule s) := by
  unfold dominanceRule
  split
  · exact h
  · split
    · simp [issuesInv]
    · exact h

theorem starvationScan_issuesInv (l : List GoroutineInfo) :
    ∀ s : Summary, issuesInv s → issuesInv (starvationScan s l) := by
  induction l with
  | nil => intro s h; exact h
  | cons g rest ih =>
    intro s h
    unfold starvationScan
    split
    · split
      · simp [issuesInv]
      · exact ih s h
    · exact ih s h

/-- C7: after a fresh Analyze run, HasPerformanceIssues holds exactly when
the issue list is non-empty; when no threshold rule fires the issue list is
empty and the flag is false. -/
theorem C7_flag_iff_issues (tasks : List GoroutineInfo) :
    ((Analyze tasks).HasPerformanceIssues = true ↔ (Analyze tasks).Issues ≠ []) := by
  have hagg := aggregate_characterization
    { goroutines := tasks,
      summary := { emptySummary with
        TotalGoroutines := tasks.length, PeakGoroutines := tasks.length } }
  have hfalse : (aggregateBlockingStats
      { goroutines := tasks,
        summary := { emptySummary with
          TotalGoroutines := tasks.length, PeakGoroutines := tasks.length } }
      ).summary.HasPerformanceIssues = false := by
    exact hagg.2.2.2.2.2.2.2.1
  show issuesInv (Analyze tasks)
  unfold Analyze AnalyzeStep NewAnalyzer
  simp only
  show issuesInv (detectPerformanceIssues _).summary
  unfold detectPerformanceIssues
  simp only
  apply starvationScan_issuesInv
  apply dominanceRule_issuesInv
  apply applyPctRule_issuesInv
  apply applyPctRule_issuesInv
  apply applyPctRule_issuesInv
  apply applyPctRule_issuesInv
  show issuesInv { (findTopBlocked _).summary with Issues := [] }
  have hf : (findTopBlocked (aggregateBlockingStats
      { goroutines := tasks,
        summary := { emptySummary with
          TotalGoroutines := tasks.length, PeakGoroutines := tasks.length } }
      )).summary.HasPerformanceIssues = false := hfalse
  simp [issuesInv, hf]


theorem applyPctRule_count (s : Summary) (r : BlockingReason) (thr : ℚ) (msg : String)
    (hne : (msg == starvationMsg) = false) :
    (applyPctRule s r thr msg).Issues.count starvationMsg
      = s.Issues.count starvationMsg := by
  unfold applyPctRule
  split
  · split
    · simp [List.count_append, List.count_cons, hne]
    · rfl
  · rfl

theorem dominanceRule_count (s : Summary) :
    (dominanceRule s).Issues.count starvationMsg = s.Issues.count starvationMsg := by
  unfold dominanceRule
  split
  · rfl
  · split
    · have hne : (("Single goroutine accounts for >50% of blocking time" : String)
          == starvationMsg) = false := by decide
      simp [List.count_append, List.count_cons, hne]
    · rfl

theorem starvationScan_count_one (l : List GoroutineInfo) :
    ∀ s : Summary,
      s.Issues.count starvationMsg = 0 →
      (∃ g ∈ l, (0 < g.TotalRunnable ∧ 0 < g.TotalRuntime) ∧ starvationRatioGt g = true) →
      (starvationScan s l).Issues.count starvationMsg = 1 := by
  induction l with
  | nil =>
    intro s h0 hex
    simp at hex
  | cons g rest ih =>
    intro s h0 hex
    unfold starvationScan
    by_cases hg : 0 < g.TotalRunnable ∧ 0 < g.TotalRuntime
    · rw [if_pos hg]
      by_cases hr : starvationRatioGt g = true
      · rw [if_pos hr]
        simp [List.count_append, List.count_cons, h0]
      · rw [if_neg hr]
        apply ih s h0
        rcases hex with ⟨g', hg', hcond⟩
        rcases List.mem_cons.mp hg' with hgg | hin
        · exact absurd (hgg ▸ hcond.2) hr
        · exact ⟨g', hin, hcond⟩
    · rw [if_neg hg]
      apply ih s h0
      rcases hex with ⟨g', hg', hcond⟩
      rcases List.mem_cons.mp hg' with hgg | hin
      · exact absurd (hgg ▸ hcond.1) hg
      · exact ⟨g', hin, hcond⟩

/-- C4 (counterexample): a task with TotalRunnable 10 and TotalRuntime 0 has
spec starvation ratio 1 > 0.7, yet Analyze reports no issue at all, because
the code's loop guard requires TotalRuntime > 0. -/
theorem C4_counterexample :
    specStarvationRatioExceeds starvedNoRuntime = true ∧
    (Analyze [starvedNoRuntime]).Issues = [] := by
  constructor
  · simp only [specStarvationRatioExceeds, starvedNoRuntime, NewGoroutineInfo,
      decide_eq_true_eq]
    norm_num
  · decide

/-- C4 (amended): for every task map containing a task with positive
runnable and runtime times whose runnable ratio exceeds 0.7, Analyze
appends the starvation issue exactly once. -/
theorem C4_amended (tasks : List GoroutineInfo)
    (h : ∃ g ∈ tasks, (0 < g.TotalRunnable ∧ 0 < g.TotalRuntime) ∧
         specStarvationRatioExceeds g = true) :
    (Analyze tasks).Issues.count starvationMsg = 1 := by
  have hcode : ∃ g ∈ tasks, (0 < g.TotalRunnable ∧ 0 < g.TotalRuntime) ∧
      starvationRatioGt g = true := h
  unfold Analyze AnalyzeStep NewAnalyzer detectPerformanceIssues
  simp only
  apply starvationScan_count_one _ _ _ hcode
  rw [dominanceRule_count, applyPctRule_count, applyPctRule_count, applyPctRule_count,
    applyPctRule_count]
  · rfl
  · decide
  · decide
  · decide
  · decide

/-- Witness for C4_amended at a task with ratio 8/9. -/
theorem C4_amended_witness :
    (∃ g ∈ [starvedTask], (0 < g.TotalRunnable ∧ 0 < g.TotalRuntime) ∧
        specStarvationRatioExceeds g = true) ∧
    (Analyze [starvedTask]).Issues.count starvationMsg = 1 :=
  ⟨⟨starvedTask, by decide, by decide, by
      simp only [specStarvationRatioExceeds, starvedTask, NewGoroutineInfo,
        decide_eq_true_eq]
      norm_num⟩,
   C4_amended [starvedTask]
     ⟨starvedTask, by decide, by decide, by
      simp only [specStarvationRatioExceeds, starvedTask, NewGoroutineInfo,
        decide_eq_true_eq]
      norm_num⟩⟩


theorem nonIssue_TBT {s1 s2 : Summary} (h : nonIssueFields s1 = nonIssueFields s2) :
    s1.TotalBlockedTime = s2.TotalBlockedTime :=
  congrArg (fun t => t.2.2.1) h

theorem nonIssue_TR {s1 s2 : Summary} (h : nonIssueFields s1 = nonIssueFields s2) :
    s1.TotalRuntime = s2.TotalRuntime :=
  congrArg (fun t => t.2.2.2.1) h

theorem nonIssue_Breakdown {s1 s2 : Summary} (h : nonIssueFields s1 = nonIssueFields s2) :
    s1.BlockingBreakdown = s2.BlockingBreakdown :=
  congrArg (fun t => t.2.2.2.2.1) h

theorem nonIssue_Percent {s1 s2 : Summary} (h : nonIssueFields s1 = nonIssueFields s2) :
    s1.BlockingPercent = s2.BlockingPercent :=
  congrArg (fun t => t.2.2.2.2.2.1) h


theorem AnalyzeStep_eq (a : Analyzer) :
    AnalyzeStep a
      = ((detectPerformanceIssues (findTopBlocked
            (aggregateBlockingStats (analyzerSetup a)))).summary,
         detectPerformanceIssues (findTopBlocked
            (aggregateBlockingStats (analyzerSetup a)))) := rfl

theorem AnalyzeStep_totals (a : Analyzer) :
    (AnalyzeStep a).1.TotalBlockedTime
        = a.summary.TotalBlockedTime + totalBlockedAll a.goroutines
    ∧ (AnalyzeStep a).1.TotalRuntime
        = a.summary.TotalRuntime + totalRuntimeAll a.goroutines
    ∧ (AnalyzeStep a).2.goroutines = a.goroutines
    ∧ (AnalyzeStep a).2.summary = (AnalyzeStep a).1 := by
  rw [AnalyzeStep_eq]
  have hd := (detect_preserves (findTopBlocked (aggregateBlockingStats (analyzerSetup a)))).2
  have hagg := aggregate_characterization (analyzerSetup a)
  refine ⟨?_, ?_, rfl, rfl⟩
  · rw [nonIssue_TBT hd]
    show (aggregateBlockingStats (analyzerSetup a)).summary.TotalBlockedTime = _
    rw [hagg.2.1]
    rfl
  · rw [nonIssue_TR hd]
    show (aggregateBlockingStats (analyzerSetup a)).summary.TotalRuntime = _
    rw [hagg.2.2.1]
    rfl

/-- C6 (counterexample): on the Analyzer built for one task with 10ns of
blocking, the first Analyze call reports TotalBlockedTime 10 but a second
call on the same Analyzer reports 20 — the summary the Analyzer keeps
between calls accumulates, so the two Summaries are not identical. -/
theorem C6_counterexample :
    (AnalyzeStep (NewAnalyzer [blockedTask])).1.TotalBlockedTime = 10
    ∧ (AnalyzeStep (AnalyzeStep (NewAnalyzer [blockedTask])).2).1.TotalBlockedTime = 20
    ∧ (AnalyzeStep (AnalyzeStep (NewAnalyzer [blockedTask])).2).1
        ≠ (AnalyzeStep (NewAnalyzer [blockedTask])).1 := by
  have h1 := AnalyzeStep_totals (NewAnalyzer [blockedTask])
  have h2 := AnalyzeStep_totals (AnalyzeStep (NewAnalyzer [blockedTask])).2
  have e1 : (AnalyzeStep (NewAnalyzer [blockedTask])).1.TotalBlockedTime = 10 := by
    rw [h1.1]
    decide
  have e2 : (AnalyzeStep (AnalyzeStep (NewAnalyzer [blockedTask])).2).1.TotalBlockedTime
      = 20 := by
    rw [h2.1, h1.2.2.1, h1.2.2.2, e1]
    decide
  refine ⟨e1, e2, fun heq => ?_⟩
  rw [heq] at e2
  rw [e1] at e2
  exact absurd e2 (by decide)

/-- C6 (amended): Analyze is deterministic for a fresh Analyzer — the
one-shot Analyze is exactly the first AnalyzeStep — but the Analyzer holds
hidden state: calling Analyze again on the same Analyzer accumulates, so
the second Summary carries twice the TotalBlockedTime and TotalRuntime of
the first. -/
theorem C6_amended (tasks : List GoroutineInfo) :
    Analyze tasks = (AnalyzeStep (NewAnalyzer tasks)).1
    ∧ (AnalyzeStep (AnalyzeStep (NewAnalyzer tasks)).2).1.TotalBlockedTime
        = 2 * (AnalyzeStep (NewAnalyzer tasks)).1.TotalBlockedTime
    ∧ (AnalyzeStep (AnalyzeStep (NewAnalyzer tasks)).2).1.TotalRuntime
        = 2 * (AnalyzeStep (NewAnalyzer tasks)).1.TotalRuntime := by
  have h1 := AnalyzeStep_totals (NewAnalyzer tasks)
  have h2 := AnalyzeStep_totals (AnalyzeStep (NewAnalyzer tasks)).2
  refine ⟨rfl, ?_, ?_⟩
  · rw [h2.1, h1.2.2.1, h1.2.2.2, h1.1]
    simp only [NewAnalyzer, emptySummary]
    ring
  · rw [h2.2.1, h1.2.2.1, h1.2.2.2, h1.2.1]
    simp only [NewAnalyzer, emptySummary]
    ring


/-- C5: when the total blocked time across tasks is zero the percentage map
is empty; otherwise each entry is 100 × reason duration / total blocked,
and the entries sum to at most 100, with equality exactly when every
blocked duration is attributed to some reason bucket. -/
theorem C5_percentages (tasks : List GoroutineInfo)
    (hattr : attributedAll tasks ≤ totalBlockedAll tasks) :
    (totalBlockedAll tasks = 0 → (Analyze tasks).BlockingPercent = [])
    ∧ (0 < totalBlockedAll tasks →
        (∀ r q, lookupAssoc (Analyze tasks).BlockingPercent r = Option.some q →
            ∃ d, lookupAssoc (Analyze tasks).BlockingBreakdown r = Option.some d ∧
              q = 100 * (d : ℚ) / (totalBlockedAll tasks : ℚ))
        ∧ sumPercents (Analyze tasks).BlockingPercent ≤ 100
        ∧ (sumPercents (Analyze tasks).BlockingPercent = 100
            ↔ attributedAll tasks = totalBlockedAll tasks)) := by
  have hd := (detect_preserves (findTopBlocked
    (aggregateBlockingStats (analyzerSetup (NewAnalyzer tasks))))).2
  have hAn : Analyze tasks
      = (detectPerformanceIssues (findTopBlocked
          (aggregateBlockingStats (analyzerSetup (NewAnalyzer tasks))))).summary := rfl
  have hP : (Analyze tasks).BlockingPercent
      = (aggregateBlockingStats (analyzerSetup (NewAnalyzer tasks))).summary.BlockingPercent := by
    rw [hAn, nonIssue_Percent hd]
    rfl
  have hB : (Analyze tasks).BlockingBreakdown
      = (aggregateBlockingStats (analyzerSetup (NewAnalyzer tasks))).summary.BlockingBreakdown := by
    rw [hAn, nonIssue_Breakdown hd]
    rfl
  have hagg := aggregate_characterization (analyzerSetup (NewAnalyzer tasks))
  have hgor : (analyzerSetup (NewAnalyzer tasks)).goroutines = tasks := rfl
  refine ⟨?_, ?_⟩
  · intro h0
    rw [hP]
    apply hagg.2.2.2.2.2.2.2.2.2.1
    rw [hgor, h0]
    exact lt_irrefl 0
  · intro hT
    have hTg : 0 < totalBlockedAll (analyzerSetup (NewAnalyzer tasks)).goroutines := by
      rw [hgor]; exact hT
    have hmap := hagg.2.2.2.2.2.2.2.2.2.2 hTg
    have hsumv : sumVals (aggregateBlockingStats
        (analyzerSetup (NewAnalyzer tasks))).summary.BlockingBreakdown
        = attributedAll tasks := by
      rw [hagg.2.2.2.1, hgor]
    have hTQ : (0 : ℚ) < (totalBlockedAll tasks : ℚ) := by exact_mod_cast hT
    have hsum : sumPercents (Analyze tasks).BlockingPercent
        = (attributedAll tasks : ℚ) / (totalBlockedAll tasks : ℚ) * 100 := by
      rw [hP, hmap, hgor, sumPercents_map, hsumv]
    refine ⟨?_, ?_, ?_⟩
    · intro r q hlook
      rw [hP, hmap, hgor, lookupAssoc_pct] at hlook
      cases hb : lookupAssoc (aggregateBlockingStats
          (analyzerSetup (NewAnalyzer tasks))).summary.BlockingBreakdown r with
      | none => rw [hb] at hlook; simp at hlook
      | some d =>
        rw [hb] at hlook
        simp at hlook
        refine ⟨d, by rw [hB]; exact hb, ?_⟩
        rw [← hlook]
        ring
    · rw [hsum]
      have hle : (attributedAll tasks : ℚ) ≤ (totalBlockedAll tasks : ℚ) := by
        exact_mod_cast hattr
      rw [div_mul_eq_mul_div, div_le_iff hTQ]
      nlinarith
    · rw [hsum, div_mul_eq_mul_div, div_eq_iff (ne_of_gt hTQ)]
      constructor
      · intro h
        have : (attributedAll tasks : ℚ) = (totalBlockedAll tasks : ℚ) := by linarith
        exact_mod_cast this
      · intro h
        rw [h]
        ring


/-- Witness for C5_percentages at a single fully-attributed blocked task. -/
theorem C5_percentages_witness :
    attributedAll [blockedTask] ≤ totalBlockedAll [blockedTask] ∧
    ((totalBlockedAll [blockedTask] = 0 → (Analyze [blockedTask]).BlockingPercent = [])
     ∧ (0 < totalBlockedAll [blockedTask] →
         (∀ r q, lookupAssoc (Analyze [blockedTask]).BlockingPercent r = Option.some q →
             ∃ d, lookupAssoc (Analyze [blockedTask]).BlockingBreakdown r = Option.some d ∧
               q = 100 * (d : ℚ) / (totalBlockedAll [blockedTask] : ℚ))
         ∧ sumPercents (Analyze [blockedTask]).BlockingPercent ≤ 100
         ∧ (sumPercents (Analyze [blockedTask]).BlockingPercent = 100
             ↔ attributedAll [blockedTask] = totalBlockedAll [blockedTask]))) :=
  ⟨by decide, C5_percentages [blockedTask] (by decide)⟩

end GoSchedViz
